import Mathlib

/-!
Verification development for docker-mdns-publisher.

This file gives a shallow embedding of the reconciliation core of
`dockersock_watcher.py` and `utils.py`: the TXT-label parser (`make_dict`),
hostname/service validation (`mkinfo` with its `is_valid_hostname` check and
the CPython `idna` codec's ASCII fast path), the publish/unpublish operations,
per-container event processing (`process_container`, `process_event`) and the
startup/stream loop (`run`).

Python strings are Lean `String`s; the string operations used by the source
(`split`, `strip`, `rstrip`, `endswith`, `removesuffix`, `int()`) are
re-implemented by structural recursion over the character list so that the
kernel can evaluate them.  Raised exceptions are modelled by the `PRes` /
`Option PyExc` result types; observable side effects (log lines and calls into
the zeroconf announcer) are collected in a trace of `Effect`s.  The mDNS
announcer itself is an external collaborator and is modelled as an oracle
(`Announcer`) saying which register/unregister calls raise.
-/

/-! ## Python string primitives -/

/-- Characters stripped by Python's `str.strip()` (ASCII whitespace). -/
def isPySpace (c : Char) : Bool :=
  c = ' ' || c = '\t' || c = '\n' || c = '\r' || c = '\x0b' || c = '\x0c'

/-- Remove leading and trailing characters satisfying `p` (Python `strip`). -/
def stripWith (p : Char → Bool) (l : List Char) : List Char :=
  ((l.dropWhile p).reverse.dropWhile p).reverse

/-- Python `s.strip()`. -/
def pyStrip (s : String) : String := String.mk (stripWith isPySpace s.data)

/-- Python `s.rstrip(c)`: remove all trailing occurrences of `c`. -/
def rstripChar (c : Char) (l : List Char) : List Char :=
  (l.reverse.dropWhile (· = c)).reverse

/-- Python `s.split(c)` on a one-character separator: splits at every
occurrence, keeping empty chunks; the empty string yields `[[]]`. -/
def splitChar (c : Char) : List Char → List (List Char)
  | [] => [[]]
  | x :: xs =>
    if x = c then [] :: splitChar c xs
    else
      match splitChar c xs with
      | [] => [[x]]
      | h :: t => (x :: h) :: t

/-- String-level wrapper for `splitChar`. -/
def pySplit (s : String) (c : Char) : List String :=
  (splitChar c s.data).map String.mk

/-- Number of occurrences of `c` in `l`. -/
def countChar (c : Char) : List Char → Nat
  | [] => 0
  | x :: xs => (if x = c then 1 else 0) + countChar c xs

/-- Python `c in s` membership test. -/
def hasChar (c : Char) : List Char → Bool
  | [] => false
  | x :: xs => x = c || hasChar c xs

/-- Python `s.endswith(suffix)`. -/
def pyEndsWith (s sfx : String) : Bool := sfx.data.isSuffixOf s.data

/-- Python `s.removesuffix(sfx)`. -/
def pyRemoveSuffix (s sfx : String) : String :=
  if sfx.data.isSuffixOf s.data then
    String.mk (s.data.take (s.data.length - sfx.data.length))
  else s

/-- Digit/underscore tail of Python `int()` parsing: digits, with single
underscores allowed between digits only. -/
def pyIntCore (acc : Nat) : List Char → Option Nat
  | [] => some acc
  | c :: rest =>
    if c.isDigit then pyIntCore (acc * 10 + (c.toNat - 48)) rest
    else if c = '_' then
      match rest with
      | [] => none
      | d :: rest2 =>
        if d.isDigit then pyIntCore (acc * 10 + (d.toNat - 48)) rest2 else none
    else none

/-- Python `int(s)` (base 10): surrounding whitespace, optional sign, then a
nonempty digit string; `none` models the raised `ValueError`. -/
def pyInt (s : String) : Option Int :=
  match stripWith isPySpace s.data with
  | [] => none
  | '+' :: rest =>
    match rest with
    | [] => none
    | d :: rest2 =>
      if d.isDigit then (pyIntCore (d.toNat - 48) rest2).map Int.ofNat else none
  | '-' :: rest =>
    match rest with
    | [] => none
    | d :: rest2 =>
      if d.isDigit then (pyIntCore (d.toNat - 48) rest2).map (fun n => -(n : Int))
      else none
  | d :: rest2 =>
    if d.isDigit then (pyIntCore (d.toNat - 48) rest2).map Int.ofNat else none

/-- Lookup in a label dictionary, modelled as an association list
(`labels.get(key)`). -/
def lookupLabel (k : String) : List (String × String) → Option String
  | [] => none
  | (k2, v) :: rest => if k2 = k then some v else lookupLabel k rest

/-! ## Data model: exceptions, effects, records, state -/

/-- Exceptions raised by the modelled code paths. `ignoredError` is
`utils.IgnoredError`; the rest are Python built-ins or collaborator errors. -/
inductive PyExc where
  | ignoredError (msg : String)
  | valueError (msg : String)
  | unicodeError (msg : String)
  | keyError (key : String)
  | urlError (msg : String)
  | zeroconfError (msg : String)
deriving DecidableEq, Repr

/-- Result of a Python call: normal return or a raised exception. -/
inductive PRes (α : Type) where
  | ok (a : α)
  | exc (e : PyExc)
deriving DecidableEq, Repr

/-- TXT properties: ordered key/value pairs (a Python dict in insertion
order). -/
abbrev Props := List (String × String)

/-- The `zeroconf.ServiceInfo` structure as filled out by `mkinfo`. -/
structure ServiceInfo where
  type_ : String
  name : String
  addresses : List String
  port : Int
  host_ttl : Nat
  server : String
  properties : Props
deriving DecidableEq, Repr

/-- Observable effects: log lines and calls into the zeroconf announcer.
`swallowed` marks an exception caught by the bare `except ... : pass` in the
die branch; it corresponds to no output at all in the source. -/
inductive Effect where
  | logInfo (msg : String)
  | logWarning (msg : String)
  | logError (msg : String)
  | registerService (info : ServiceInfo)
  | unregisterService (info : ServiceInfo)
  | swallowed (e : PyExc)
deriving DecidableEq, Repr

/-- The `info_store` dict: container id to the single stored record. -/
abbrev Store := List (String × ServiceInfo)

/-- Membership test `container_id in self.info_store`. -/
def storeHas (cid : String) : Store → Bool
  | [] => false
  | (k, _) :: rest => k = cid || storeHas cid rest

/-- Python dict assignment `d[cid] = info` (overwrite in place, else append). -/
def storeInsert (cid : String) (info : ServiceInfo) : Store → Store
  | [] => [(cid, info)]
  | (k, v) :: rest =>
    if k = cid then (k, info) :: rest else (k, v) :: storeInsert cid info rest

/-- Python `d.pop(cid)`: the removed value and the remaining dict, or `none`
for the raised `KeyError`. -/
def storePop (cid : String) : Store → Option (ServiceInfo × Store)
  | [] => none
  | (k, v) :: rest =>
    if k = cid then some (v, rest)
    else (storePop cid rest).map (fun r => (r.1, (k, v) :: r.2))

/-- Well-formedness of a store: keys occur at most once (always true of the
real `info_store`, which is a dict). -/
def storeWf : Store → Bool
  | [] => true
  | (k, _) :: rest => !storeHas k rest && storeWf rest

/-- Result of processing: the effect trace, the updated `info_store`, and the
escaping exception if one was raised. -/
structure Outcome where
  effects : List Effect
  store : Store
  exc : Option PyExc
deriving DecidableEq, Repr

/-- Prepend already-produced effects to a continuation's outcome. -/
def Outcome.seq (effs : List Effect) (o : Outcome) : Outcome :=
  ⟨effs ++ o.effects, o.store, o.exc⟩

/-- Oracle for the external zeroconf announcer: which register/unregister
calls raise, and with what message. -/
structure Announcer where
  registerError : ServiceInfo → Option String
  unregisterError : ServiceInfo → Option String

/-- Relevant configuration state (environment-derived). `now` stands for the
wall-clock string `datetime.utcnow().strftime(...)`. -/
structure Config where
  publish_ttl : Nat
  log_level : String
  now : String

/-- The `LocalHostWatcher` object's immutable parts. -/
structure Watcher where
  config : Config
  interfaces : List String
  announcer : Announcer

/-- A docker event as consumed by `process_event`. -/
structure Event where
  type_ : String
  action : String
  actorId : String
deriving DecidableEq, Repr

/-! ## utils.py -/

/-- Table `well_known_port_name` from utils.py. -/
def well_known_port_name (port : Int) : Option String :=
  if port = 80 then some "_http._tcp"
  else if port = 443 then some "_http._tcp"
  else if port = 515 then some "_printer._tcp"
  else if port = 631 then some "_ipp._tcp"
  else if port = 9100 then some "_pdl-datastream._tcp"
  else if port = 1883 then some "_mqtt._tcp"
  else none

/-! ## Hostname validation and normalization (`mkinfo`) -/

/-- Character class of the label regex `[A-Z\d\-\_]` with `re.IGNORECASE`
(ASCII input only, as guaranteed by the idna encoding step). -/
def allowedHostChar (c : Char) : Bool :=
  c.isAlpha || c.isDigit || c = '-' || c = '_'

/-- Full match of `(?!-)[A-Z\d\-\_]{1,63}(?<!-)` against `l`. -/
def labelMatchCore (l : List Char) : Bool :=
  decide (0 < l.length) && decide (l.length ≤ 63) && l.all allowedHostChar
    && !(l.head? == some '-') && !(l.getLast? == some '-')

/-- The regex test `allowed.match(x)` with pattern
`(?!-)[A-Z\d\-\_]{1,63}(?<!-)$`: `$` also matches just before one trailing
newline, so a single trailing newline is tolerated. -/
def labelMatch (l : List Char) : Bool :=
  labelMatchCore (if l.getLast? == some '\n' then l.dropLast else l)

/-- The nested `is_valid_hostname` helper of `mkinfo`. -/
def is_valid_hostname (hostname : String) : Bool :=
  if decide (255 < hostname.data.length) then false
  else (splitChar '.' (rstripChar '.' hostname.data)).all labelMatch

/-- CPython's `encodings.idna` codec on the ASCII fast path: every label but
the last must have length 1..63 and the last below 64; the input is returned
unchanged.  The non-ASCII nameprep/punycode slow path is outside the modelled
fragment and is treated as the raised `UnicodeError` (`none`); no modelled
claim reaches it. -/
def idnaEncode (s : String) : Option String :=
  if s.data.all (fun c => decide (c.toNat < 128)) then
    if s.data.isEmpty then some s
    else
      if ((splitChar '.' s.data).dropLast.all
            (fun l => decide (0 < l.length) && decide (l.length < 64)))
          && decide (((splitChar '.' s.data).getLastD []).length < 64)
      then some s else none
  else none

/-- Construct the `zeroconf.ServiceInfo` exactly as `mkinfo` does. -/
def mkServiceInfo (w : Watcher) (service_type locLabel : String) (port : Int)
    (servername : String) (props : Props) : ServiceInfo :=
  { type_ := service_type ++ ".local."
    name := locLabel ++ "." ++ service_type ++ ".local."
    addresses := w.interfaces
    port := port
    host_ttl := w.config.publish_ttl
    server := servername
    properties := props }

/-- Body of `mkinfo` after the trailing dot has been supplied. -/
def mkinfoDotted (w : Watcher) (cname : String) (port : Int)
    (service_type : Option String) (props : Props) : PRes ServiceInfo :=
  match idnaEncode cname with
  | none => .exc (.unicodeError "label empty or too long")
  | some servername =>
    if is_valid_hostname servername then
      if pyEndsWith cname ".local." then
        match service_type with
        | some st =>
          .ok (mkServiceInfo w st (pyRemoveSuffix cname ".local.") port servername props)
        | none =>
          match well_known_port_name port with
          | some st =>
            .ok (mkServiceInfo w st (pyRemoveSuffix cname ".local.") port servername props)
          | none =>
            .exc (.ignoredError
              ("port " ++ toString port ++ " is non standard. Supply a service type."))
      else .exc (.ignoredError "only .local domain is supported")
    else .exc (.ignoredError ("invalid server name " ++ cname))

/-- `LocalHostWatcher.mkinfo`: supply the trailing dot, punycode-encode,
validate, and resolve the service type. -/
def mkinfo (w : Watcher) (cname : String) (port : Int)
    (service_type : Option String) (props : Props) : PRes ServiceInfo :=
  mkinfoDotted w (if pyEndsWith cname "." then cname else cname ++ ".")
    port service_type props

/-! ## publish / unpublish -/

/-- Log line `logger.info("publishing %s:%d", cname, port)`. -/
def pubMsg (cname : String) (port : Int) : String :=
  "publishing " ++ cname ++ ":" ++ toString port

/-- `LocalHostWatcher.publish`: log, build the info, call the announcer's
register; a `zeroconf.Error` from the announcer is wrapped into an
`IgnoredError` (message formatting by error subtype is not modelled), while
errors raised by `mkinfo` itself propagate unwrapped. -/
def publish (w : Watcher) (cname : String) (port : Int)
    (service_type : Option String) (props : Props) :
    List Effect × PRes ServiceInfo :=
  match mkinfo w cname port service_type props with
  | .exc e => ([Effect.logInfo (pubMsg cname port)], .exc e)
  | .ok info =>
    match w.announcer.registerError info with
    | none =>
      ([Effect.logInfo (pubMsg cname port), Effect.registerService info], .ok info)
    | some m =>
      ([Effect.logInfo (pubMsg cname port), Effect.registerService info],
        .exc (.ignoredError m))

/-- Effects of `LocalHostWatcher.unpublish` as invoked from the die branch:
the log line, the unregister call, and—when the announcer raises—the
exception, which the caller's bare `except` swallows. -/
def unpublishEffs (w : Watcher) (info : ServiceInfo) : List Effect :=
  [Effect.logInfo ("unpublishing " ++ info.name ++ ":" ++ toString info.port),
   Effect.unregisterService info] ++
  (match w.announcer.unregisterError info with
   | none => []
   | some m => [Effect.swallowed (.zeroconfError m)])

/-! ## Label parsing (`make_dict`) -/

/-- One iteration of the `make_dict` loop: skip blank entries, split on `=`
for key/value entries, pair a bare key with `''`. -/
def txtEntry (t : String) : Option (List String) :=
  if pyStrip t = "" then none
  else if hasChar '=' t.data then some (pySplit t '=')
  else some [t, ""]

/-- Check that every tuple has exactly two elements, as `dict(a)` requires;
`none` models the raised `ValueError`. -/
def toPairs : List (List String) → Option (List (String × String))
  | [] => some []
  | x :: rest =>
    match x with
    | [k, v] => (toPairs rest).map (fun ps => (k, v) :: ps)
    | _ => none

/-- Python dict insertion: overwrite in place, else append. -/
def dictInsert (d : Props) (k v : String) : Props :=
  match d with
  | [] => [(k, v)]
  | (k2, v2) :: rest =>
    if k2 = k then (k2, v) :: rest else (k2, v2) :: dictInsert rest k v

/-- Python `dict(pairs)`: insertion order with later duplicates overwriting. -/
def dictOf (pairs : List (String × String)) : Props :=
  pairs.foldl (fun d p => dictInsert d p.1 p.2) []

/-- The nested `make_dict` helper of `process_container`: transform the
`mdns.txt` string into a dict. -/
def make_dict (s : String) : PRes Props :=
  match toPairs ((pySplit s ',').filterMap txtEntry) with
  | some pairs => .ok (dictOf pairs)
  | none =>
    .exc (.valueError "dictionary update sequence element has wrong length; 2 is required")

/-! ## process_container -/

/-- Per-entry name/port parsing: split a `name:port` entry on `:` and parse
the port with `int()`; `cname, port = cname.split(':')` also raises when
there is more than one `:`. -/
def parseEntry (entry : String) : PRes (String × Int) :=
  if hasChar ':' entry.data then
    match splitChar ':' entry.data with
    | [c, p] =>
      match pyInt (String.mk p) with
      | some n => .ok (String.mk c, n)
      | none =>
        .exc (.valueError ("invalid literal for int() with base 10: " ++ String.mk p))
    | _ => .exc (.valueError "too many values to unpack")
  else .ok (entry, 80)

/-- Boolean form of "parseEntry succeeds". -/
def parseOk (entry : String) : Bool :=
  match parseEntry entry with
  | .ok _ => true
  | .exc _ => false

/-- Message of the duplicate-registration `IgnoredError` (the source spreads
it over a continuation line; whitespace is normalized here). -/
def dupMsg (cname cid : String) : String :=
  "trying to register more than one service (" ++ cname ++ ") for container " ++ cid

/-- With `LOG_LEVEL=DEBUG` two synthetic entries are added to the TXT dict. -/
def debugTxt (w : Watcher) (cid : String) (txt : Props) : Props :=
  if w.config.log_level = "DEBUG" then
    dictInsert (dictInsert txt "container_id" cid) "publish_date" w.config.now
  else txt

/-- The `try: unpublish(info_store.pop(cid)) except Exception: pass` step of
the die branch: effects produced and the store afterwards (exceptions from
both the pop and the unregister call are swallowed). -/
def dieStep (w : Watcher) (cid : String) (store : Store) : List Effect × Store :=
  match storePop cid store with
  | some r => (unpublishEffs w r.1, r.2)
  | none => ([Effect.swallowed (.keyError cid)], store)

/-- The `for cname in hosts.split(',')` loop of `process_container`.  An
exception raised in an iteration aborts the loop, keeping the store mutations
already made. -/
def processNames (w : Watcher) (cid : String) (service_type : Option String)
    (txt : Props) (action : String) : List String → Store → Outcome
  | [], store => ⟨[], store, none⟩
  | entry :: rest, store =>
    match parseEntry entry with
    | .exc e => ⟨[], store, some e⟩
    | .ok cp =>
      if action = "start" then
        if storeHas cid store then
          ⟨[], store, some (.ignoredError (dupMsg cp.1 cid))⟩
        else
          match publish w cp.1 cp.2 service_type txt with
          | (effs, .exc e) => ⟨effs, store, some e⟩
          | (effs, .ok info) =>
            Outcome.seq effs
              (processNames w cid service_type txt action rest (storeInsert cid info store))
      else if action = "die" then
        match dieStep w cid store with
        | (effs, store2) =>
          Outcome.seq effs (processNames w cid service_type txt action rest store2)
      else processNames w cid service_type txt action rest store

/-- `LocalHostWatcher.process_container`: parse the labels and register or
deregister each advertised name.  `make_dict` runs before the `mdns.publish`
check, so a malformed `mdns.txt` raises even for containers without publish
intents. -/
def process_container (w : Watcher) (cid : String)
    (labels : List (String × String)) (action : String) (store : Store) : Outcome :=
  match make_dict ((lookupLabel "mdns.txt" labels).getD "") with
  | .exc e => ⟨[], store, some e⟩
  | .ok txt0 =>
    match lookupLabel "mdns.publish" labels with
    | none => ⟨[], store, none⟩
    | some hosts =>
      processNames w cid (lookupLabel "mdns.servicetype" labels)
        (debugTxt w cid txt0) action (pySplit hosts ',') store

/-! ## process_event and run -/

/-- The `except URLError` / `except IgnoredError` handlers of
`process_event`: log and continue; anything else propagates. -/
def eventCatch (o : Outcome) : Outcome :=
  match o.exc with
  | some (PyExc.urlError m) => ⟨o.effects ++ [Effect.logWarning m], o.store, none⟩
  | some (PyExc.ignoredError m) => ⟨o.effects ++ [Effect.logError m], o.store, none⟩
  | _ => o

/-- `LocalHostWatcher.process_event`: filter container start/die events, look
the container up (`docker` is the runtime-client oracle) and process it. -/
def process_event (w : Watcher) (docker : String → PRes (List (String × String)))
    (event : Event) (store : Store) : Outcome :=
  if event.type_ = "container" ∧ (event.action = "start" ∨ event.action = "die") then
    match docker event.actorId with
    | .exc e => eventCatch ⟨[], store, some e⟩
    | .ok labels => eventCatch (process_container w event.actorId labels event.action store)
  else ⟨[], store, none⟩

/-- The startup enumeration loop of `run`: `process_container(..., "start")`
on each listed container, with no exception handling around it. -/
def runContainers (w : Watcher) : List (String × List (String × String)) → Store → Outcome
  | [], store => ⟨[], store, none⟩
  | c :: rest, store =>
    match process_container w c.1 c.2 "start" store with
    | ⟨effs, store2, Option.none⟩ => Outcome.seq effs (runContainers w rest store2)
    | ⟨effs, store2, Option.some e⟩ => ⟨effs, store2, some e⟩

/-- The event-consumption loop of `run`, on a finite prefix of the stream. -/
def runEvents (w : Watcher) (docker : String → PRes (List (String × String))) :
    List Event → Store → Outcome
  | [], store => ⟨[], store, none⟩
  | ev :: rest, store =>
    match process_event w docker ev store with
    | ⟨effs, store2, Option.none⟩ => Outcome.seq effs (runEvents w docker rest store2)
    | ⟨effs, store2, Option.some e⟩ => ⟨effs, store2, some e⟩

/-- `LocalHostWatcher.run`: enumerate running containers carrying the
`mdns.publish` label, then consume the event stream.  An exception escaping
the enumeration aborts `run` before any event is consumed. -/
def run (w : Watcher) (docker : String → PRes (List (String × String)))
    (containers : List (String × List (String × String)))
    (events : List Event) (store : Store) : Outcome :=
  match runContainers w
      (containers.filter (fun c => (lookupLabel "mdns.publish" c.2).isSome)) store with
  | ⟨effs, store2, Option.none⟩ => Outcome.seq effs (runEvents w docker events store2)
  | ⟨effs, store2, Option.some e⟩ => ⟨effs, store2, some e⟩

/-! ## Concrete fixtures for closed evaluations -/

/-- Announcer oracle on which every call succeeds. -/
def annOk : Announcer := ⟨fun _ => none, fun _ => none⟩

/-- Default watcher: TTL 3600, log level INFO, no interfaces, announcer ok. -/
def wDefault : Watcher :=
  { config := { publish_ttl := 3600, log_level := "INFO", now := "" }
    interfaces := []
    announcer := annOk }

/-- Effect classifiers used in claim statements. -/
def isRegister : Effect → Bool
  | .registerService _ => true
  | _ => false

/-- True for announcer unregister calls. -/
def isUnregister : Effect → Bool
  | .unregisterService _ => true
  | _ => false

/-- True for any log line. -/
def isLog : Effect → Bool
  | .logInfo _ => true
  | .logWarning _ => true
  | .logError _ => true
  | _ => false

/-- True for a swallowed exception marker. -/
def isSwallow : Effect → Bool
  | .swallowed _ => true
  | _ => false

/-! ## Helper lemmas about the string primitives -/

theorem splitChar_cons_exists (c : Char) (l : List Char) :
    ∃ h t, splitChar c l = h :: t := by
  induction l with
  | nil => exact ⟨[], [], rfl⟩
  | cons x xs ih =>
    by_cases hx : x = c
    · exact ⟨[], splitChar c xs, by simp [splitChar, hx]⟩
    · obtain ⟨h, t, heq⟩ := ih
      exact ⟨x :: h, t, by simp [splitChar, hx, heq]⟩

theorem splitChar_length (c : Char) (l : List Char) :
    (splitChar c l).length = countChar c l + 1 := by
  induction l with
  | nil => rfl
  | cons x xs ih =>
    by_cases hx : x = c
    · simp [splitChar, countChar, hx, ih]
      omega
    · obtain ⟨h, t, heq⟩ := splitChar_cons_exists c xs
      rw [heq] at ih
      simp only [splitChar, countChar, if_neg hx, heq]
      simp only [List.length_cons] at ih ⊢
      omega

theorem hasChar_of_countChar (c : Char) (l : List Char) (h : 0 < countChar c l) :
    hasChar c l = true := by
  induction l with
  | nil => simp [countChar] at h
  | cons x xs ih =>
    by_cases hx : x = c
    · simp [hasChar, hx]
    · simp only [countChar, if_neg hx, Nat.zero_add] at h
      simp [hasChar, hx, ih h]

theorem hasChar_all {p : Char → Bool} (c : Char) (l : List Char)
    (h : hasChar c l = true) (hall : l.all p = true) : p c = true := by
  induction l with
  | nil => simp [hasChar] at h
  | cons x xs ih =>
    simp only [List.all_cons, Bool.and_eq_true] at hall
    simp only [hasChar, Bool.or_eq_true, decide_eq_true_eq] at h
    rcases h with h | h
    · exact h ▸ hall.1
    · exact ih h hall.2

theorem splitChar_no_char (c : Char) (l : List Char) (h : hasChar c l = false) :
    splitChar c l = [l] := by
  induction l with
  | nil => rfl
  | cons x xs ih =>
    simp only [hasChar, Bool.or_eq_false_iff, decide_eq_false_iff_not] at h
    simp [splitChar, h.1, ih h.2]

theorem dropWhile_all_nil {p : Char → Bool} (l : List Char)
    (h : l.all p = true) : l.dropWhile p = [] := by
  induction l with
  | nil => rfl
  | cons x xs ih =>
    simp only [List.all_cons, Bool.and_eq_true] at h
    simp [List.dropWhile, h.1, ih h.2]

theorem stripWith_all_nil {p : Char → Bool} (l : List Char)
    (h : l.all p = true) : stripWith p l = [] := by
  simp [stripWith, dropWhile_all_nil l h]

theorem pyEndsWith_append_dot (s : String) : pyEndsWith (s ++ ".") "." = true := by
  show (("." : String)).data.isSuffixOf (s ++ ".").data = true
  have h1 : (s ++ ".").data = s.data ++ ['.'] := by simp [String.data_append]
  rw [h1]
  simp [List.isSuffixOf, List.reverse_append, List.isPrefixOf]

theorem toPairs_none (a : List (List String)) (x : List String)
    (hmem : x ∈ a) (hlen : x.length ≠ 2) : toPairs a = none := by
  induction a with
  | nil => simp at hmem
  | cons y rest ih =>
    rcases List.mem_cons.mp hmem with hy | hr
    · subst hy
      match x with
      | [] => rfl
      | [k] => rfl
      | [k, v] => simp at hlen
      | k :: v :: z :: r => rfl
    · match y with
      | [] => rfl
      | [k] => rfl
      | [k, v] => simp [toPairs, ih hr]
      | k :: v :: z :: r => rfl

/-! ## Helper lemmas about the store -/

theorem storeHas_storeInsert (cid : String) (info : ServiceInfo) (s : Store) :
    storeHas cid (storeInsert cid info s) = true := by
  induction s with
  | nil => simp [storeInsert, storeHas]
  | cons kv rest ih =>
    obtain ⟨k2, v2⟩ := kv
    by_cases hk : k2 = cid
    · simp [storeInsert, hk, storeHas]
    · simp [storeInsert, hk, storeHas, ih]

theorem storePop_none_iff (cid : String) (s : Store) :
    storePop cid s = none ↔ storeHas cid s = false := by
  induction s with
  | nil => simp [storePop, storeHas]
  | cons kv rest ih =>
    obtain ⟨k2, v2⟩ := kv
    by_cases hk : k2 = cid
    · simp [storePop, storeHas, hk]
    · simp [storePop, storeHas, hk, ih]

theorem storeHas_of_storePop (cid k : String) (s : Store) :
    ∀ (s2 : Store) (v : ServiceInfo), storePop cid s = some (v, s2) →
      storeHas k s2 = true → storeHas k s = true := by
  induction s with
  | nil => intro s2 v hpop _; simp [storePop] at hpop
  | cons kv rest ih =>
    intro s2 v hpop h
    obtain ⟨k2, v2⟩ := kv
    by_cases hk : k2 = cid
    · rw [storePop, if_pos hk] at hpop
      simp only [Option.some.injEq, Prod.mk.injEq] at hpop
      obtain ⟨-, hs⟩ := hpop
      subst hs
      simp [storeHas, h]
    · rw [storePop, if_neg hk] at hpop
      cases hmap : storePop cid rest with
      | none => rw [hmap] at hpop; simp at hpop
      | some r =>
        rw [hmap] at hpop
        simp only [Option.map, Option.some.injEq, Prod.mk.injEq] at hpop
        obtain ⟨-, hs⟩ := hpop
        subst hs
        simp only [storeHas, Bool.or_eq_true, decide_eq_true_eq] at h ⊢
        rcases h with h | h
        · exact Or.inl h
        · exact Or.inr (ih r.2 r.1 (by rw [hmap]) h)

theorem storePop_wf (cid : String) (s : Store) :
    ∀ (s2 : Store) (v : ServiceInfo), storeWf s = true →
      storePop cid s = some (v, s2) →
      storeHas cid s2 = false ∧ storeWf s2 = true := by
  induction s with
  | nil => intro s2 v _ hpop; simp [storePop] at hpop
  | cons kv rest ih =>
    intro s2 v hwf hpop
    obtain ⟨k2, v2⟩ := kv
    simp only [storeWf, Bool.and_eq_true, Bool.not_eq_true'] at hwf
    by_cases hk : k2 = cid
    · rw [storePop, if_pos hk] at hpop
      simp only [Option.some.injEq, Prod.mk.injEq] at hpop
      obtain ⟨-, hs⟩ := hpop
      subst hs
      exact ⟨hk ▸ hwf.1, hwf.2⟩
    · rw [storePop, if_neg hk] at hpop
      cases hmap : storePop cid rest with
      | none => rw [hmap] at hpop; simp at hpop
      | some r =>
        rw [hmap] at hpop
        simp only [Option.map, Option.some.injEq, Prod.mk.injEq] at hpop
        obtain ⟨-, hs⟩ := hpop
        subst hs
        obtain ⟨h1, h2⟩ := ih r.2 r.1 hwf.2 (by rw [hmap])
        constructor
        · simp only [storeHas, Bool.or_eq_false_iff, decide_eq_false_iff_not]
          exact ⟨hk, h1⟩
        · simp only [storeWf, Bool.and_eq_true, Bool.not_eq_true']
          refine ⟨?_, h2⟩
          cases hsk : storeHas k2 r.2 with
          | false => rfl
          | true =>
            have := storeHas_of_storePop cid k2 rest r.2 r.1 (by rw [hmap]) hsk
            rw [this] at hwf
            exact absurd hwf.1 (by simp)

/-! ## Lemmas about the processing loop -/

theorem parseOk_exists (e : String) (h : parseOk e = true) :
    ∃ cp, parseEntry e = PRes.ok cp := by
  cases heq : parseEntry e with
  | ok cp => exact ⟨cp, rfl⟩
  | exc ex => rw [parseOk, heq] at h; exact absurd h (by simp)

theorem processNames_die_unregistered (w : Watcher) (cid : String)
    (st : Option String) (txt : Props) (entries : List String) (store : Store)
    (hh : storeHas cid store = false) (hp : entries.all parseOk = true) :
    processNames w cid st txt "die" entries store =
      ⟨entries.map (fun _ => Effect.swallowed (PyExc.keyError cid)), store, none⟩ := by
  induction entries with
  | nil => rfl
  | cons e rest ih =>
    simp only [List.all_cons, Bool.and_eq_true] at hp
    obtain ⟨cp, hpe⟩ := parseOk_exists e hp.1
    have hpop : storePop cid store = none := (storePop_none_iff cid store).mpr hh
    simp only [processNames, hpe]
    rw [if_neg (by decide : ¬ ("die" : String) = "start"), if_pos trivial]
    simp only [dieStep, hpop]
    rw [ih hp.2]
    simp [Outcome.seq]

theorem processNames_die_clears (w : Watcher) (cid : String)
    (st : Option String) (txt : Props) (e : String) (rest : List String)
    (store : Store) (hwf : storeWf store = true)
    (hp : (e :: rest).all parseOk = true) :
    (processNames w cid st txt "die" (e :: rest) store).exc = none ∧
      storeHas cid (processNames w cid st txt "die" (e :: rest) store).store = false ∧
      storeWf (processNames w cid st txt "die" (e :: rest) store).store = true := by
  simp only [List.all_cons, Bool.and_eq_true] at hp
  obtain ⟨cp, hpe⟩ := parseOk_exists e hp.1
  cases hpop : storePop cid store with
  | none =>
    have hh : storeHas cid store = false := (storePop_none_iff cid store).mp hpop
    rw [processNames_die_unregistered w cid st txt (e :: rest) store hh
      (by simp [List.all_cons, hp.1, hp.2])]
    exact ⟨rfl, hh, hwf⟩
  | some r =>
    obtain ⟨h1, h2⟩ := storePop_wf cid store r.2 r.1 hwf (by rw [hpop])
    simp only [processNames, hpe]
    rw [if_neg (by decide : ¬ ("die" : String) = "start"), if_pos trivial]
    simp only [dieStep, hpop]
    rw [processNames_die_unregistered w cid st txt rest r.2 h1 hp.2]
    exact ⟨rfl, h1, h2⟩

theorem processNames_start_registered (w : Watcher) (cid : String)
    (st : Option String) (txt : Props) (e : String) (rest : List String)
    (store : Store) (cp : String × Int) (hpe : parseEntry e = PRes.ok cp)
    (hreg : storeHas cid store = true) :
    processNames w cid st txt "start" (e :: rest) store =
      ⟨[], store, some (PyExc.ignoredError (dupMsg cp.1 cid))⟩ := by
  simp only [processNames, hpe]
  rw [if_pos trivial, hreg]
  simp

/-! ## Reduction helper for `mkinfo` at concrete hostnames -/

theorem mkinfo_reduce (w : Watcher) (port : Int) (stype : Option String)
    (props : Props) (cname cd sn loc : String)
    (h1 : (if pyEndsWith cname "." then cname else cname ++ ".") = cd)
    (h2 : idnaEncode cd = some sn)
    (h3 : is_valid_hostname sn = true)
    (h4 : pyEndsWith cd ".local." = true)
    (h5 : pyRemoveSuffix cd ".local." = loc) :
    mkinfo w cname port stype props =
      (match stype with
       | some st => PRes.ok (mkServiceInfo w st loc port sn props)
       | none =>
         match well_known_port_name port with
         | some st => PRes.ok (mkServiceInfo w st loc port sn props)
         | none => PRes.exc (PyExc.ignoredError
             ("port " ++ toString port ++ " is non standard. Supply a service type."))) := by
  simp only [mkinfo, h1, mkinfoDotted, h2, h3, h4, h5, if_true]

/-! ## Claim theorems -/

/-- C7: `normalize("foo.global.", 80, None)` is rejected because the name does
not end in ".local." (the source's `IgnoredError "only .local domain is
supported"`), while `normalize("foo.local", 80, None)` succeeds with server
name `"foo.local."` and service type `"_http._tcp"` (stored in the
`ServiceInfo` as `type_ = "_http._tcp" ++ ".local."`). -/
theorem C7_domain_check :
    mkinfo wDefault "foo.global." 80 none [] =
      PRes.exc (PyExc.ignoredError "only .local domain is supported") ∧
    mkinfo wDefault "foo.local" 80 none [] =
      PRes.ok (mkServiceInfo wDefault "_http._tcp" "foo" 80 "foo.local." []) ∧
    (mkServiceInfo wDefault "_http._tcp" "foo" 80 "foo.local." []).server = "foo.local." ∧
    (mkServiceInfo wDefault "_http._tcp" "foo" 80 "foo.local." []).type_ =
      "_http._tcp" ++ ".local." := by
  refine ⟨by decide, by decide, by decide, by decide⟩

/-- C8: appending the missing trailing dot is the only normalization the
input name undergoes before the common path, so `normalize(h ++ ".", port,
st)` and `normalize(h, port, st)` coincide for every name without a trailing
dot (in particular for every valid hostname), every port and every service
type. -/
theorem C8_trailing_dot (w : Watcher) (h : String) (port : Int)
    (stype : Option String) (props : Props)
    (hdot : pyEndsWith h "." = false) :
    mkinfo w (h ++ ".") port stype props = mkinfo w h port stype props := by
  simp only [mkinfo, pyEndsWith_append_dot, hdot, if_true, Bool.false_eq_true,
    if_false]

/-- C8 witness: the round trip at `h = "foo.local"`, `port = 80`. -/
theorem C8_trailing_dot_witness :
    mkinfo wDefault ("foo.local" ++ ".") 80 none [] =
      mkinfo wDefault "foo.local" 80 none [] :=
  C8_trailing_dot wDefault "foo.local" 80 none [] (by decide)

/-- C9: service-type resolution in `mkinfo`: an explicit service type is used
verbatim for any port (its `type_` is the given string with ".local."
appended, so subtype forms such as "rest._sub._http._tcp" pass through
unchanged); with no explicit type the port is looked up in
`well_known_port_name`, and a miss raises the `IgnoredError` asking for a
service type; concretely port 6789 fails without and succeeds with an
explicit `"_http._tcp"`. -/
theorem C9_service_type :
    (∀ (w : Watcher) (port : Int) (st : String) (props : Props),
      mkinfo w "foo.local" port (some st) props =
        PRes.ok (mkServiceInfo w st "foo" port "foo.local." props)) ∧
    (∀ (w : Watcher) (st loc : String) (port : Int) (sn : String) (props : Props),
      (mkServiceInfo w st loc port sn props).type_ = st ++ ".local.") ∧
    (∀ (w : Watcher) (port : Int) (props : Props),
      well_known_port_name port = none →
      mkinfo w "foo.local" port none props =
        PRes.exc (PyExc.ignoredError
          ("port " ++ toString port ++ " is non standard. Supply a service type."))) ∧
    mkinfo wDefault "foo.local" 6789 none [] =
      PRes.exc (PyExc.ignoredError "port 6789 is non standard. Supply a service type.") ∧
    mkinfo wDefault "foo.local" 6789 (some "_http._tcp") [] =
      PRes.ok (mkServiceInfo wDefault "_http._tcp" "foo" 6789 "foo.local." []) := by
  refine ⟨?_, fun w st loc port sn props => rfl, ?_, by decide, by decide⟩
  · intro w port st props
    rw [mkinfo_reduce w port (some st) props "foo.local" "foo.local." "foo.local." "foo"
      (by decide) (by decide) (by decide) (by decide) (by decide)]
  · intro w port props hmiss
    rw [mkinfo_reduce w port none props "foo.local" "foo.local." "foo.local." "foo"
      (by decide) (by decide) (by decide) (by decide) (by decide), hmiss]

/-- C9 witness: the unknown-port hypothesis discharged at port 9999. -/
theorem C9_service_type_witness :
    mkinfo wDefault "foo.local" 9999 none [] =
      PRes.exc (PyExc.ignoredError "port 9999 is non standard. Supply a service type.") :=
  C9_service_type.2.2.1 wDefault 9999 [] (by decide)

/-- C4 counterexample: `make_dict` maps a bare entry `"flag"` and the
explicit-empty entry `"flag="` to exactly the same dict `[("flag", "")]`, so
the value produced for an entry without `=` is NOT distinguishable from the
value produced for a key with an explicit empty string, contrary to the
claim. -/
theorem C4_counterexample :
    make_dict "flag" = make_dict "flag=" ∧
    make_dict "flag" = PRes.ok [("flag", "")] := by
  refine ⟨by decide, by decide⟩

/-- C4 amended: parsing `mdns.txt` yields ordered key/value pairs; an entry
containing no `=` maps its key to the empty-string value, which is identical
to (not distinguishable from) the value produced for `"key="`; blank or
whitespace-only entries are skipped. -/
theorem C4_txt_parse :
    make_dict "flag" = PRes.ok [("flag", "")] ∧
    make_dict "flag=" = PRes.ok [("flag", "")] ∧
    make_dict "k=v, ,flag,," = PRes.ok [("k", "v"), ("flag", "")] ∧
    (∀ t : String, t.data.all isPySpace = true → make_dict t = PRes.ok []) := by
  refine ⟨by decide, by decide, by decide, ?_⟩
  intro t ht
  have hnc : hasChar ',' t.data = false := by
    cases hc : hasChar ',' t.data with
    | false => rfl
    | true => exact absurd (hasChar_all ',' t.data hc ht) (by decide)
  have hsp : pySplit t ',' = [t] := by
    simp [pySplit, splitChar_no_char ',' t.data hnc]
  have hst : pyStrip t = "" := by
    show String.mk (stripWith isPySpace t.data) = ""
    rw [stripWith_all_nil t.data ht]
  simp [make_dict, hsp, txtEntry, hst, toPairs, dictOf]

/-- C4 witness: the whitespace-only hypothesis discharged at `" "`. -/
theorem C4_txt_parse_witness : make_dict " " = PRes.ok [] :=
  C4_txt_parse.2.2.2 " " (by decide)

/-- C10: an `mdns.txt` entry that is non-blank and contains two or more `=`
characters splits into a tuple of more than two elements, so `dict(a)` raises
a `ValueError` which escapes `process_container` before any name of the
container is published or withdrawn: the store is unchanged and no effect is
produced, for any action. -/
theorem C10_txt_multiple_eq (w : Watcher) (cid : String)
    (labels : List (String × String)) (action : String) (store : Store)
    (txtS : String) (hl : lookupLabel "mdns.txt" labels = some txtS)
    (hbad : ∃ t ∈ pySplit txtS ',', pyStrip t ≠ "" ∧ 2 ≤ countChar '=' t.data) :
    (∀ t : String, 2 ≤ countChar '=' t.data → 2 < (pySplit t '=').length) ∧
    process_container w cid labels action store =
      ⟨[], store, some (PyExc.valueError
        "dictionary update sequence element has wrong length; 2 is required")⟩ := by
  have hlen : ∀ t : String, 2 ≤ countChar '=' t.data → 2 < (pySplit t '=').length := by
    intro t hc
    have := splitChar_length '=' t.data
    simp only [pySplit, List.length_map]
    omega
  refine ⟨hlen, ?_⟩
  obtain ⟨t, htmem, hts, htc⟩ := hbad
  have hentry : txtEntry t = some (pySplit t '=') := by
    rw [txtEntry, if_neg hts, if_pos]
    exact hasChar_of_countChar '=' t.data (by omega)
  have hmd : make_dict txtS = PRes.exc (PyExc.valueError
      "dictionary update sequence element has wrong length; 2 is required") := by
    rw [make_dict, toPairs_none ((pySplit txtS ',').filterMap txtEntry) (pySplit t '=')
      (List.mem_filterMap.mpr ⟨t, htmem, hentry⟩)
      (by have := hlen t htc; omega)]
  simp only [process_container, hl, Option.getD_some, hmd]

/-- C10 witness: the hypotheses discharged at the label set
`{"mdns.txt": "k=a=b"}`. -/
theorem C10_txt_multiple_eq_witness :
    process_container wDefault "c1" [("mdns.txt", "k=a=b")] "start" [] =
      ⟨[], [], some (PyExc.valueError
        "dictionary update sequence element has wrong length; 2 is required")⟩ :=
  (C10_txt_multiple_eq wDefault "c1" [("mdns.txt", "k=a=b")] "start" [] "k=a=b"
    (by decide) ⟨"k=a=b", by decide, by decide, by decide⟩).2

/-- Runtime-client stub used in closed evaluations below. -/
def dockerStub : String → PRes (List (String × String)) :=
  fun _ => PRes.ok [("mdns.publish", "b.local")]

/-- Runtime client for the bad-port scenario: container `cA` carries a
malformed port, container `cB` a well-formed label. -/
def dockerC3 : String → PRes (List (String × String)) := fun cid =>
  if cid = "cA" then PRes.ok [("mdns.publish", "a.local:xx,b.local")]
  else PRes.ok [("mdns.publish", "b.local")]

/-- Runtime client whose every container carries `mdns.publish=a.local`. -/
def dockerC5 : String → PRes (List (String × String)) :=
  fun _ => PRes.ok [("mdns.publish", "a.local")]

/-- The record published for `a.local:80` by the default watcher. -/
def infoALocal : ServiceInfo := mkServiceInfo wDefault "_http._tcp" "a" 80 "a.local." []

/-- C1: the startup enumeration in `run` calls `process_container` with no
exception handling, so container A's validation failure (`IgnoredError` for
the invalid name `-foo.local`) escapes `run`: container B is never published
(no register effect, empty store) and the event stream is never consumed,
even though an event is pending.  This contradicts the documented contract of
`IgnoredError` ("the daemon keeps running"); the streaming pass in
`process_event` does catch it. -/
theorem C1_enumeration_abort :
    run wDefault dockerStub
      [("A", [("mdns.publish", "-foo.local")]), ("B", [("mdns.publish", "b.local")])]
      [⟨"container", "start", "B"⟩] [] =
      ⟨[Effect.logInfo "publishing -foo.local:80"], [],
       some (PyExc.ignoredError "invalid server name -foo.local.")⟩ := by
  decide

/-- C3 counterexample: a `name:port` entry whose port text is not integer
text makes `int()` raise a `ValueError` that nothing catches: the entry is
not logged-and-skipped (no effect at all is produced), the container's other
entry `b.local` is never attempted, and the error escapes `process_event`,
terminating the event-consumption loop before the next event (a well-formed
container `cB`) is processed. -/
theorem C3_counterexample :
    runEvents wDefault dockerC3
      [⟨"container", "start", "cA"⟩, ⟨"container", "start", "cB"⟩] [] =
      ⟨[], [], some (PyExc.valueError "invalid literal for int() with base 10: xx")⟩ := by
  decide

/-- C3 amended: malformed port text in an `mdns.publish` entry raises an
uncaught `ValueError` that aborts the whole container's processing (no entry
is skipped, no sibling entry is attempted, no effect is produced, the store
is untouched) and propagates to the caller, for any watcher, container id,
action and prior store. -/
theorem C3_port_value_error (w : Watcher) (cid action : String) (store : Store) :
    process_container w cid [("mdns.publish", "a.local:xx,b.local")] action store =
      ⟨[], store, some (PyExc.valueError "invalid literal for int() with base 10: xx")⟩ :=
  rfl

/-- C2 counterexample: for a container whose `mdns.publish` label lists the
two names `a.local,b.local`, a `start` ends with exactly one announcer
register call and exactly one stored record (for `a.local` only), and raises
the duplicate-registration `IgnoredError` for `b.local` instead of attempting
it; the subsequent `die` therefore makes exactly one unregister call, not
one per name. -/
theorem C2_counterexample :
    (process_container wDefault "c1" [("mdns.publish", "a.local,b.local")] "start" []).store.length = 1 ∧
    ((process_container wDefault "c1" [("mdns.publish", "a.local,b.local")] "start" []).effects.filter
      isRegister).length = 1 ∧
    (process_container wDefault "c1" [("mdns.publish", "a.local,b.local")] "start" []).exc =
      some (PyExc.ignoredError (dupMsg "b.local" "c1")) ∧
    ((process_container wDefault "c1" [("mdns.publish", "a.local,b.local")] "die"
        (process_container wDefault "c1" [("mdns.publish", "a.local,b.local")] "start" []).store).effects.filter
      isUnregister).length = 1 := by
  refine ⟨by decide, by decide, by decide, by decide⟩

/-- C2 amended: processing `start` for a container listing two names
publishes the first name, stores it as the container's single registry
record, and then raises the duplicate-registration `IgnoredError` when it
reaches the second name (because the container id is already in the store),
so the second name is never attempted and only the first name's record can
later be withdrawn. -/
theorem C2_first_name_only (w : Watcher) (store : Store)
    (hdbg : ¬ w.config.log_level = "DEBUG")
    (hreg : storeHas "c1" store = false)
    (hann : w.announcer.registerError (mkServiceInfo w "_http._tcp" "a" 80 "a.local." []) = none) :
    process_container w "c1" [("mdns.publish", "a.local,b.local")] "start" store =
      ⟨[Effect.logInfo (pubMsg "a.local" 80),
        Effect.registerService (mkServiceInfo w "_http._tcp" "a" 80 "a.local." [])],
       storeInsert "c1" (mkServiceInfo w "_http._tcp" "a" 80 "a.local." []) store,
       some (PyExc.ignoredError (dupMsg "b.local" "c1"))⟩ := by
  have hmd : make_dict ((lookupLabel "mdns.txt"
      [("mdns.publish", "a.local,b.local")]).getD "") = PRes.ok [] := by decide
  have hpub : lookupLabel "mdns.publish" [("mdns.publish", "a.local,b.local")] =
      some "a.local,b.local" := by decide
  have hsvc : lookupLabel "mdns.servicetype" [("mdns.publish", "a.local,b.local")] =
      none := by decide
  have hdt : debugTxt w "c1" [] = [] := by simp [debugTxt, hdbg]
  have hsp : pySplit "a.local,b.local" ',' = ["a.local", "b.local"] := by decide
  have hpe : parseEntry "a.local" = PRes.ok ("a.local", 80) := by decide
  have hmk : mkinfo w "a.local" 80 none [] =
      PRes.ok (mkServiceInfo w "_http._tcp" "a" 80 "a.local." []) := by
    rw [mkinfo_reduce w 80 none [] "a.local" "a.local." "a.local." "a"
      (by decide) (by decide) (by decide) (by decide) (by decide)]
    rfl
  have hpe2 : parseEntry "b.local" = PRes.ok ("b.local", 80) := by decide
  simp only [process_container, hmd, hpub, hsvc, hsp, hdt]
  simp only [processNames, hpe, hpe2, if_true, publish, hmk, hann, hreg,
    storeHas_storeInsert, Bool.false_eq_true, if_false]
  simp [Outcome.seq, dupMsg]

/-- C2 witness: the amended behavior at the default watcher and empty store. -/
theorem C2_first_name_only_witness :
    process_container wDefault "c1" [("mdns.publish", "a.local,b.local")] "start" [] =
      ⟨[Effect.logInfo (pubMsg "a.local" 80),
        Effect.registerService (mkServiceInfo wDefault "_http._tcp" "a" 80 "a.local." [])],
       storeInsert "c1" (mkServiceInfo wDefault "_http._tcp" "a" 80 "a.local." []) [],
       some (PyExc.ignoredError (dupMsg "b.local" "c1"))⟩ :=
  C2_first_name_only wDefault [] (by decide) (by decide) rfl

/-- C5: a second `start` event for a container id that already owns a store
entry leaves the store unchanged, makes no announcer call (no publish at
all), and produces exactly one diagnostic: the `IgnoredError` raised by the
duplicate-registration guard, caught and logged by `process_event`.  The
hypotheses say the container still resolves, its labels carry `mdns.publish`,
its `mdns.txt` parses, and the first name entry parses (all true of a
container whose first `start` succeeded). -/
theorem C5_duplicate_start (w : Watcher)
    (docker : String → PRes (List (String × String)))
    (store : Store) (cid : String) (labels : List (String × String))
    (hosts : String) (d : Props) (e0 : String) (rest : List String)
    (cp : String × Int)
    (hdock : docker cid = PRes.ok labels)
    (hpub : lookupLabel "mdns.publish" labels = some hosts)
    (htxt : make_dict ((lookupLabel "mdns.txt" labels).getD "") = PRes.ok d)
    (hsplit : pySplit hosts ',' = e0 :: rest)
    (hparse : parseEntry e0 = PRes.ok cp)
    (hreg : storeHas cid store = true) :
    process_event w docker ⟨"container", "start", cid⟩ store =
      ⟨[Effect.logError (dupMsg cp.1 cid)], store, none⟩ := by
  simp only [process_event]
  rw [if_pos ⟨trivial, Or.inl trivial⟩, hdock]
  simp only [process_container, htxt, hpub, hsplit]
  rw [processNames_start_registered w cid (lookupLabel "mdns.servicetype" labels)
    (debugTxt w cid d) e0 rest store cp hparse hreg]
  simp [eventCatch]

/-- C5 witness: duplicate start for `c1` at the default watcher, with
`a.local:80` already registered. -/
theorem C5_duplicate_start_witness :
    process_event wDefault dockerC5 ⟨"container", "start", "c1"⟩ [("c1", infoALocal)] =
      ⟨[Effect.logError (dupMsg "a.local" "c1")], [("c1", infoALocal)], none⟩ :=
  C5_duplicate_start wDefault dockerC5 [("c1", infoALocal)] "c1"
    [("mdns.publish", "a.local")] "a.local" [] "a.local" [] ("a.local", 80)
    rfl (by decide) (by decide) (by decide) (by decide) (by decide)

/-- C6 counterexample: after `a.local` has been published for `c1` and
withdrawn once, a second `die` swallows the `KeyError` from
`info_store.pop` while producing no log line at all (its whole effect trace
is the swallow marker), refuting the claim's "any error during withdrawal is
swallowed after logging": the source's handler is a bare
`except Exception: pass`.  The first `die`'s trace is shown for contrast:
one unpublish log and one unregister call. -/
theorem C6_counterexample :
    process_container wDefault "c1" [("mdns.publish", "a.local")] "die"
        (process_container wDefault "c1" [("mdns.publish", "a.local")] "die"
          [("c1", infoALocal)]).store =
      ⟨[Effect.swallowed (PyExc.keyError "c1")], [], none⟩ ∧
    (process_container wDefault "c1" [("mdns.publish", "a.local")] "die"
        [("c1", infoALocal)]).effects =
      [Effect.logInfo "unpublishing a._http._tcp.local.:80",
       Effect.unregisterService infoALocal] := by
  refine ⟨by decide, by decide⟩

/-- C6 amended: processing `die` twice in a row for the same container id
never raises: the second processing is a no-op on the registry (store
unchanged), makes no announcer unregister call and emits no log line — every
error during the second withdrawal is silently swallowed (each of its effects
is a swallow marker). -/
theorem C6_die_twice (w : Watcher) (cid : String)
    (labels : List (String × String)) (store : Store) (hosts : String)
    (d : Props)
    (hwf : storeWf store = true)
    (hpub : lookupLabel "mdns.publish" labels = some hosts)
    (htxt : make_dict ((lookupLabel "mdns.txt" labels).getD "") = PRes.ok d)
    (hp : (pySplit hosts ',').all parseOk = true) :
    (process_container w cid labels "die"
        (process_container w cid labels "die" store).store).exc = none ∧
    (process_container w cid labels "die"
        (process_container w cid labels "die" store).store).store =
      (process_container w cid labels "die" store).store ∧
    (process_container w cid labels "die"
        (process_container w cid labels "die" store).store).effects.all
      isSwallow = true := by
  have hred : ∀ s : Store, process_container w cid labels "die" s =
      processNames w cid (lookupLabel "mdns.servicetype" labels)
        (debugTxt w cid d) "die" (pySplit hosts ',') s := by
    intro s
    simp only [process_container, htxt, hpub]
  obtain ⟨h0, t0, hsc⟩ := splitChar_cons_exists ',' hosts.data
  have hsp : pySplit hosts ',' = String.mk h0 :: t0.map String.mk := by
    simp [pySplit, hsc]
  rw [hsp] at hp
  obtain ⟨hexc, hhas, hwf2⟩ := processNames_die_clears w cid
    (lookupLabel "mdns.servicetype" labels) (debugTxt w cid d)
    (String.mk h0) (t0.map String.mk) store hwf hp
  rw [hred store, hred, hsp] at *
  rw [processNames_die_unregistered w cid
    (lookupLabel "mdns.servicetype" labels) (debugTxt w cid d)
    (String.mk h0 :: t0.map String.mk) _ hhas hp]
  refine ⟨rfl, rfl, ?_⟩
  simp [isSwallow, List.all_map, Function.comp]

/-- C6 witness: the double-die at the default watcher for a container that
owns no registration (empty store, so both withdrawals swallow). -/
theorem C6_die_twice_witness :
    (process_container wDefault "c1" [("mdns.publish", "a.local")] "die"
        (process_container wDefault "c1" [("mdns.publish", "a.local")] "die" []).store).exc = none ∧
    (process_container wDefault "c1" [("mdns.publish", "a.local")] "die"
        (process_container wDefault "c1" [("mdns.publish", "a.local")] "die" []).store).store =
      (process_container wDefault "c1" [("mdns.publish", "a.local")] "die" []).store ∧
    (process_container wDefault "c1" [("mdns.publish", "a.local")] "die"
        (process_container wDefault "c1" [("mdns.publish", "a.local")] "die" []).store).effects.all
      isSwallow = true :=
  C6_die_twice wDefault "c1" [("mdns.publish", "a.local")] [] "a.local" []
    (by decide) (by decide) (by decide) (by decide)
